import Mathlib

/-!
Verification development for the Intel DMT MCP server (`src/app.py`).

The source is a small Python bridge exposing three tool operations
(`get_devices`, `get_power_state`, `do_power_action`) over a remote REST
API.  We shallowly embed the Python code: JSON values become an inductive
type with Python semantics (truthiness, `str()` rendering, subscripting,
`dict.get`), the HTTP layer becomes an explicit outcome value supplied by
the environment, and code that can raise becomes `Except PyErr`.
-/

namespace DMT

/-- JSON values as produced by `response.json()`.  Numeric bodies in this
API are integers, so only integer numbers are modelled. -/
inductive Json where
  | null : Json
  | bool (b : Bool) : Json
  | int (n : Int) : Json
  | str (s : String) : Json
  | arr (xs : List Json) : Json
  | obj (fields : List (String × Json)) : Json

/-- Python exceptions that the embedded fragments can raise. -/
inductive PyErr where
  | keyError (k : String) : PyErr
  | typeError : PyErr
  | attributeError : PyErr
  deriving Repr, DecidableEq

/-- Python truthiness of a JSON value (`bool(x)`). -/
def Json.truthy : Json → Bool
  | .null => false
  | .bool b => b
  | .int n => n != 0
  | .str s => !(s = "")
  | .arr xs => !xs.isEmpty
  | .obj fs => !fs.isEmpty

/-- Truthiness of a Python value that may be `None` (`Option Json`). -/
def pyTruthy : Option Json → Bool
  | none => false
  | some j => j.truthy

/-- Python `repr` escape of one character inside a string literal quoted
with `q` (covers the printable characters occurring in this development). -/
def pyCharEscape (q : Char) (c : Char) : String :=
  if c = Char.ofNat 92 then "\\\\"
  else if c = q then "\\" ++ String.singleton q
  else if c = Char.ofNat 10 then "\\n"
  else if c = Char.ofNat 13 then "\\r"
  else if c = Char.ofNat 9 then "\\t"
  else String.singleton c

/-- Python `repr` of a string: single quotes unless the string contains a
single quote and no double quote. -/
def pyReprString (s : String) : String :=
  let sq := Char.ofNat 39
  let dq := Char.ofNat 34
  let q : Char := if s.toList.contains sq ∧ ¬ s.toList.contains dq then dq else sq
  String.singleton q ++ String.join (s.toList.map (pyCharEscape q)) ++ String.singleton q

/-- Python `repr` of a JSON value (used by `str()` on lists and dicts). -/
def pyRepr : Json → String
  | .null => "None"
  | .bool true => "True"
  | .bool false => "False"
  | .int n => toString n
  | .str s => pyReprString s
  | .arr xs => "[" ++ String.intercalate ", " (xs.attach.map (fun p => pyRepr p.1)) ++ "]"
  | .obj fs =>
      "\x7b" ++
        String.intercalate ", "
          (fs.attach.map (fun p => pyReprString p.1.1 ++ ": " ++ pyRepr p.1.2)) ++
      "\x7d"
termination_by j => sizeOf j
decreasing_by
  · have h := List.sizeOf_lt_of_mem p.2
    simp only [Json.arr.sizeOf_spec]
    omega
  · obtain ⟨⟨a, b⟩, hm⟩ := p
    have h := List.sizeOf_lt_of_mem hm
    simp only [Json.obj.sizeOf_spec, Prod.mk.sizeOf_spec] at *
    omega

/-- Python `str()` of a JSON value, as used inside f-strings. -/
def pyStr : Json → String
  | .null => "None"
  | .bool true => "True"
  | .bool false => "False"
  | .int n => toString n
  | .str s => s
  | .arr xs => pyRepr (.arr xs)
  | .obj fs => pyRepr (.obj fs)

/-- Python `str()` of a value that may be `None` (`f"Bearer \x7btoken\x7d"`
renders an absent token as the literal `None`). -/
def pyStrOpt : Option Json → String
  | none => "None"
  | some v => pyStr v

/-- Python subscripting `v[k]` with a string key: dict lookup raising
`KeyError` when the key is missing, `TypeError` on any non-dict. -/
def pySubscript (v : Json) (k : String) : Except PyErr Json :=
  match v with
  | .obj fs =>
      match fs.lookup k with
      | some x => .ok x
      | none => .error (.keyError k)
  | _ => .error .typeError

/-- Python `v.get(k)`: `none` for a missing key or a `null` value (both are
Python `None`), `AttributeError` on any non-dict. -/
def pyDictGet (v : Json) (k : String) : Except PyErr (Option Json) :=
  match v with
  | .obj fs =>
      match fs.lookup k with
      | some .null => .ok none
      | some x => .ok (some x)
      | none => .ok none
  | _ => .error .attributeError

/-- Python iteration `for item in v`: lists yield elements, dicts yield
their keys, strings yield one-character strings, scalars raise
`TypeError`. -/
def pyIter : Json → Except PyErr (List Json)
  | .arr xs => .ok xs
  | .obj fs => .ok (fs.map (fun p => .str p.1))
  | .str s => .ok (s.toList.map (fun c => .str (String.singleton c)))
  | _ => .error .typeError

/-- Numeric view of a JSON value for Python `==` against an integer
(`True == 1`, `False == 0`; strings, lists, dicts and `None` never equal an
integer). -/
def pyToInt : Json → Option Int
  | .int n => some n
  | .bool b => some (if b then 1 else 0)
  | _ => none

/-- Outcome of one HTTP call as seen by the Python `try` block: either the
request itself fails (network error or timeout), or a response arrives
with a status code and a body whose JSON parse either succeeds (`some`)
or fails (`none`). -/
inductive HttpOutcome where
  | failure : HttpOutcome
  | response (status : Nat) (body : Option Json) : HttpOutcome

/-- The outbound request a dispatcher hands to `httpx`: URL, headers, and
(for POST) a JSON payload. -/
structure SentRequest where
  url : String
  headers : List (String × String)
  body : Option Json

/-- The remote environment: what the network returns for a given request.
Quantifying theorems over `Remote` quantifies over every possible remote
behaviour. -/
def Remote := SentRequest → HttpOutcome

/-- The process state: the module-global `token`, set once by `authorize`.
It holds whatever `get_token` returned: `none` (Python `None`) or the JSON
value of the response's `token` field. -/
structure AppState where
  token : Option Json

def DMT_API_BASE : String := "http://localhost:8181/api/v1"

def USER_AGENT : String := "DMT-app/1.0"

/-- Headers attached by both authenticated dispatchers
(`make_dmt_get_request` / `make_dmt_post_request`). -/
def dmt_headers (token : Option Json) : List (String × String) :=
  [("User-Agent", USER_AGENT),
   ("Accept", "application/json"),
   ("Authorization", "Bearer " ++ pyStrOpt token)]

/-- Semantics of `response.raise_for_status()` followed by `response.json()` inside
`try ... except: return None`: a 2xx response yields its parsed body (or
`None` on a parse failure), everything else yields `None`. -/
def httpResult : HttpOutcome → Option Json
  | .failure => none
  | .response status body =>
      if 200 ≤ status ∧ status ≤ 299 then body else none

/-- The GET request `make_dmt_get_request` sends. -/
def dmt_get_sent (s : AppState) (url : String) : SentRequest :=
  ⟨url, dmt_headers s.token, none⟩

/-- The POST request `make_dmt_post_request` sends. -/
def dmt_post_sent (s : AppState) (url : String) (payload : Json) : SentRequest :=
  ⟨url, dmt_headers s.token, some payload⟩

/-- Dispatcher `make_dmt_get_request(url)`: authenticated GET with uniform error
handling.  Returns the parsed JSON (or Python `None`) and the process
state after the call; the source never assigns `token`, so the state
passes through unchanged. -/
def make_dmt_get_request (s : AppState) (url : String) (remote : Remote) :
    Option Json × AppState :=
  (httpResult (remote (dmt_get_sent s url)), s)

/-- Dispatcher `make_dmt_post_request(url, json)`: authenticated POST with uniform
error handling, state threaded as for the GET variant. -/
def make_dmt_post_request (s : AppState) (url : String) (payload : Json)
    (remote : Remote) : Option Json × AppState :=
  (httpResult (remote (dmt_post_sent s url payload)), s)

/-- The authorization request `get_token` sends (no Authorization header). -/
def auth_sent (username password : String) : SentRequest :=
  ⟨DMT_API_BASE ++ "/authorize",
   [("User-Agent", USER_AGENT), ("Accept", "application/json")],
   some (.obj [("username", .str username), ("password", .str password)])⟩

/-- Operation `get_token(username, password)`: POSTs to `/authorize` and returns
`data["token"]`; every exception (transport failure, non-2xx from
`raise_for_status`, JSON parse failure, `KeyError`/`TypeError` on the
subscript) is caught and becomes Python `None`.  A `null` token value is
returned as Python `None` as well. -/
def get_token (username password : String) (remote : Remote) : Option Json :=
  match remote (auth_sent username password) with
  | .failure => none
  | .response status body =>
      if 200 ≤ status ∧ status ≤ 299 then
        match body with
        | some (.obj fs) =>
            match fs.lookup "token" with
            | some .null => none
            | some v => some v
            | none => none
        | _ => none
      else none

/-- Startup `authorize()`: populates the global `token` once at startup. -/
def authorize (username password : String) (remote : Remote) : AppState :=
  ⟨get_token username password remote⟩

def devices_url (status : Int) : String :=
  DMT_API_BASE ++ "/devices?status=" ++ toString status

/-- The f-string block built for one device inside `get_devices` (the
triple-quoted literal opens and closes with a newline). -/
def format_device (item : Json) : Except PyErr String := do
  let cs ← pySubscript item "connectionStatus"
  let hn ← pySubscript item "hostname"
  let g ← pySubscript item "guid"
  let fn ← pySubscript item "friendlyName"
  pure ("\nConnection Status: " ++ pyStr cs ++
        "\nHostname: " ++ pyStr hn ++
        "\nGUID: " ++ pyStr g ++
        "\nFriendly Name: " ++ pyStr fn ++ "\n")

/-- The `for item in data` loop of `get_devices`: formats each item in
order, stopping at the first exception. -/
def format_devices : List Json → Except PyErr (List String)
  | [] => .ok []
  | item :: rest => do
      let d ← format_device item
      let ds ← format_devices rest
      pure (d :: ds)

/-- Body of `get_devices` after the dispatcher call: `if not data` (true for
Python `None`, an empty list, an empty dict, ...), then the
`isinstance(data, list) and len(data) < 1` check, then the formatting
loop joined with `"\n---\n"`. -/
def get_devices_body (data : Option Json) : Except PyErr String :=
  if !pyTruthy data then .ok "Unable to fetch devices."
  else
    match data with
    | none => .ok "Unable to fetch devices."
    | some d =>
        if (match d with | .arr xs => decide (xs.length < 1) | _ => false) then
          .ok "No device."
        else do
          let items ← pyIter d
          let devices ← format_devices items
          pure (String.intercalate "\n---\n" devices)

/-- Tool `get_devices(status: int = 1)`. -/
def get_devices (s : AppState) (status : Int) (remote : Remote) :
    Except PyErr String :=
  get_devices_body (make_dmt_get_request s (devices_url status) remote).1

def power_state_url (guid : String) : String :=
  DMT_API_BASE ++ "/amt/power/state/" ++ guid

/-- The `match data["powerstate"]` statement of `get_power_state`
(literal cases compare with Python `==`; booleans equal only 0/1, which
are not among the cases, so every non-case value reaches `case _`). -/
def power_state_label : Json → String
  | .int 2 => "On"
  | .int 3 => "Sleep - Light"
  | .int 4 => "Sleep - Deep"
  | .int 6 => "Off - Hard"
  | .int 7 => "Hibernate (Off - Soft)"
  | .int 8 => "Off - Soft"
  | .int 9 => "Power Cycle (Off-Hard)"
  | .int 13 => "Off - Hard Graceful"
  | _ => "Unknown"

/-- Body of `get_power_state` after the dispatcher call: `if not data`, then the
`data["powerstate"]` subscript (which raises `KeyError` on a truthy dict
missing the field), then the label match. -/
def get_power_state_body (data : Option Json) : Except PyErr String :=
  if !pyTruthy data then .ok "Unable to get power state of device."
  else
    match data with
    | none => .ok "Unable to get power state of device."
    | some d => do
        let ps ← pySubscript d "powerstate"
        pure ("Power State: " ++ power_state_label ps)

/-- Tool `get_power_state(guid: str)`. -/
def get_power_state (s : AppState) (guid : String) (remote : Remote) :
    Except PyErr String :=
  get_power_state_body (make_dmt_get_request s (power_state_url guid) remote).1

def power_action_url (guid : String) : String :=
  DMT_API_BASE ++ "/amt/power/action/" ++ guid

/-- The POST payload of `do_power_action`: the action integer verbatim and
`useSOL` as the string it was passed as. -/
def power_action_payload (action : Int) (useSOL : String) : Json :=
  .obj [("action", .int action), ("useSOL", .str useSOL)]

/-- Body of `do_power_action` after the dispatcher call:
`(not data) or (data.get("ReturnValue") is None)` (short-circuit: `.get`
only runs on truthy data), then `data["ReturnValue"] != 0`. -/
def do_power_action_body (data : Option Json) : Except PyErr String :=
  if !pyTruthy data then .ok "Unable to perform power action on the device."
  else
    match data with
    | none => .ok "Unable to perform power action on the device."
    | some d => do
        let rv ← pyDictGet d "ReturnValue"
        match rv with
        | none => pure "Unable to perform power action on the device."
        | some _ => do
            let v ← pySubscript d "ReturnValue"
            if pyToInt v = some 0 then
              pure "Success to perform power action."
            else
              pure "Failed to perform power action."

/-- Tool `do_power_action(guid: str, action: int, useSOL: str = "false")`. -/
def do_power_action (s : AppState) (guid : String) (action : Int)
    (useSOL : String) (remote : Remote) : Except PyErr String :=
  do_power_action_body
    (make_dmt_post_request s (power_action_url guid)
      (power_action_payload action useSOL) remote).1

/-! ### Helper lemmas -/

theorem lookup_isEmpty_false {fs : List (String × Json)} {k : String}
    {v : Json} (h : fs.lookup k = some v) : fs.isEmpty = false := by
  cases fs with
  | nil => simp [List.lookup] at h
  | cons a l => rfl

theorem truthy_obj_of_lookup {fs : List (String × Json)} {k : String}
    {v : Json} (h : fs.lookup k = some v) :
    pyTruthy (some (.obj fs)) = true := by
  simp [pyTruthy, Json.truthy, lookup_isEmpty_false h]

theorem power_state_label_int (c : Int) :
    power_state_label (.int c) =
      (if c = 2 then "On" else if c = 3 then "Sleep - Light"
       else if c = 4 then "Sleep - Deep" else if c = 6 then "Off - Hard"
       else if c = 7 then "Hibernate (Off - Soft)"
       else if c = 8 then "Off - Soft"
       else if c = 9 then "Power Cycle (Off-Hard)"
       else if c = 13 then "Off - Hard Graceful"
       else "Unknown") := by
  unfold power_state_label
  split <;> simp_all

/-! ### Claims -/

/-- C2: for every integer power-state code `c` returned by the remote API
(a 2xx body whose `powerstate` field is `c`), `get_power_state` returns
the single line `"Power State: <label>"`, with the label given by the
fixed table 2↦On, 3↦Sleep - Light, 4↦Sleep - Deep, 6↦Off - Hard,
7↦Hibernate (Off - Soft), 8↦Off - Soft, 9↦Power Cycle (Off-Hard),
13↦Off - Hard Graceful, and "Unknown" for every other integer. -/
theorem C2_power_state_labels (s : AppState) (guid : String)
    (remote : Remote) (fs : List (String × Json)) (c : Int)
    (h : httpResult (remote (dmt_get_sent s (power_state_url guid))) =
           some (.obj fs))
    (hps : fs.lookup "powerstate" = some (.int c)) :
    get_power_state s guid remote =
      .ok ("Power State: " ++
        (if c = 2 then "On" else if c = 3 then "Sleep - Light"
         else if c = 4 then "Sleep - Deep" else if c = 6 then "Off - Hard"
         else if c = 7 then "Hibernate (Off - Soft)"
         else if c = 8 then "Off - Soft"
         else if c = 9 then "Power Cycle (Off-Hard)"
         else if c = 13 then "Off - Hard Graceful"
         else "Unknown")) := by
  unfold get_power_state make_dmt_get_request
  simp only [h]
  unfold get_power_state_body
  rw [truthy_obj_of_lookup hps]
  simp [pySubscript, hps, power_state_label_int]

/-- C2 witness: the spec's own example, a stub returning
`\x7b"powerstate": 8\x7d` yields `"Power State: Off - Soft"`. -/
theorem C2_power_state_labels_witness :
    get_power_state ⟨some (.str "T")⟩ "abc-123"
      (fun _ => .response 200 (some (.obj [("powerstate", .int 8)]))) =
      .ok "Power State: Off - Soft" := by
  have h := C2_power_state_labels ⟨some (.str "T")⟩ "abc-123"
    (fun _ => .response 200 (some (.obj [("powerstate", .int 8)])))
    [("powerstate", .int 8)] 8 (by rfl) (by rfl)
  simpa using h

/-- C3: for every guid and action, `do_power_action` returns the fixed
success string when the dispatcher result carries `ReturnValue = 0`, the
fixed failure string when it carries any integer `ReturnValue ≠ 0`, and
the fixed "unable to perform" string when the dispatcher returns absence
or the result object lacks a `ReturnValue` field. -/
theorem C3_do_power_action_results (s : AppState) (guid : String)
    (action : Int) (useSOL : String) (remote : Remote) :
    (httpResult (remote (dmt_post_sent s (power_action_url guid)
        (power_action_payload action useSOL))) = none →
      do_power_action s guid action useSOL remote =
        .ok "Unable to perform power action on the device.") ∧
    (∀ fs : List (String × Json),
      httpResult (remote (dmt_post_sent s (power_action_url guid)
          (power_action_payload action useSOL))) = some (.obj fs) →
      (fs.lookup "ReturnValue" = none →
        do_power_action s guid action useSOL remote =
          .ok "Unable to perform power action on the device.") ∧
      (fs.lookup "ReturnValue" = some (.int 0) →
        do_power_action s guid action useSOL remote =
          .ok "Success to perform power action.") ∧
      (∀ n : Int, fs.lookup "ReturnValue" = some (.int n) → n ≠ 0 →
        do_power_action s guid action useSOL remote =
          .ok "Failed to perform power action.")) := by
  unfold do_power_action make_dmt_post_request
  constructor
  · intro h
    simp only [h]
    rfl
  · intro fs h
    simp only [h]
    refine ⟨fun hnone => ?_, fun hzero => ?_, fun n hn hne => ?_⟩
    · unfold do_power_action_body
      cases hfs : fs.isEmpty with
      | true =>
          have : pyTruthy (some (.obj fs)) = false := by
            simp [pyTruthy, Json.truthy, hfs]
          simp [this]
      | false =>
          have : pyTruthy (some (.obj fs)) = true := by
            simp [pyTruthy, Json.truthy, hfs]
          simp [this, pyDictGet, hnone, bind, Except.bind, pure, Except.pure]
    · unfold do_power_action_body
      rw [truthy_obj_of_lookup hzero]
      simp [pyDictGet, hzero, pySubscript, pyToInt,
        bind, Except.bind, pure, Except.pure]
    · unfold do_power_action_body
      rw [truthy_obj_of_lookup hn]
      simp [pyDictGet, hn, pySubscript, pyToInt, hne,
        bind, Except.bind, pure, Except.pure]

/-- C3 witness: concrete stubs — `\x7b"ReturnValue": 0\x7d` gives the
success string, `\x7b"ReturnValue": 5\x7d` the failure string, `\x7b\x7d`
and dispatcher absence the "unable to perform" string. -/
theorem C3_do_power_action_results_witness :
    (do_power_action ⟨some (.str "T")⟩ "abc-123" 10 "false"
        (fun _ => .response 200 (some (.obj [("ReturnValue", .int 0)]))) =
      .ok "Success to perform power action.") ∧
    (do_power_action ⟨some (.str "T")⟩ "abc-123" 10 "false"
        (fun _ => .response 200 (some (.obj [("ReturnValue", .int 5)]))) =
      .ok "Failed to perform power action.") ∧
    (do_power_action ⟨some (.str "T")⟩ "abc-123" 10 "false"
        (fun _ => .failure) =
      .ok "Unable to perform power action on the device.") := by
  refine ⟨?_, ?_, ?_⟩
  · exact (((C3_do_power_action_results ⟨some (.str "T")⟩ "abc-123" 10 "false"
      (fun _ => .response 200 (some (.obj [("ReturnValue", .int 0)])))).2
      [("ReturnValue", .int 0)] (by rfl)).2.1 (by rfl))
  · exact (((C3_do_power_action_results ⟨some (.str "T")⟩ "abc-123" 10 "false"
      (fun _ => .response 200 (some (.obj [("ReturnValue", .int 5)])))).2
      [("ReturnValue", .int 5)] (by rfl)).2.2 5 (by rfl) (by decide))
  · exact ((C3_do_power_action_results ⟨some (.str "T")⟩ "abc-123" 10 "false"
      (fun _ => .failure)).1 (by rfl))

/-- C4: the claim says an empty device array yields the fixed "no device"
message, distinct from "unable to fetch".  The code disagrees: an empty
Python list is falsy, so `if not data` fires first and the
`isinstance(data, list) and len(data) < 1` branch is unreachable — the
empty array collapses onto the "unable to fetch" message. -/
theorem C4_empty_array_collapses_to_unable :
    get_devices ⟨some (.str "T")⟩ 1
        (fun _ => .response 200 (some (.arr []))) =
      .ok "Unable to fetch devices." ∧
    get_devices ⟨some (.str "T")⟩ 1
        (fun _ => .response 200 (some (.arr []))) ≠
      .ok "No device." := by
  refine ⟨rfl, ?_⟩
  intro h
  rw [show get_devices ⟨some (.str "T")⟩ 1
        (fun _ => .response 200 (some (.arr []))) =
      .ok "Unable to fetch devices." from rfl] at h
  exact absurd (Except.ok.inj h) (by decide)

theorem format_device_ok {fs : List (String × Json)}
    (h1 : (fs.lookup "connectionStatus").isSome = true)
    (h2 : (fs.lookup "hostname").isSome = true)
    (h3 : (fs.lookup "guid").isSome = true)
    (h4 : (fs.lookup "friendlyName").isSome = true) :
    ∃ b, format_device (.obj fs) = .ok b := by
  obtain ⟨v1, hv1⟩ := Option.isSome_iff_exists.mp h1
  obtain ⟨v2, hv2⟩ := Option.isSome_iff_exists.mp h2
  obtain ⟨v3, hv3⟩ := Option.isSome_iff_exists.mp h3
  obtain ⟨v4, hv4⟩ := Option.isSome_iff_exists.mp h4
  refine ⟨"\nConnection Status: " ++ pyStr v1 ++
          "\nHostname: " ++ pyStr v2 ++
          "\nGUID: " ++ pyStr v3 ++
          "\nFriendly Name: " ++ pyStr v4 ++ "\n", ?_⟩
  unfold format_device
  simp [pySubscript, hv1, hv2, hv3, hv4, bind, Except.bind, pure, Except.pure]

theorem format_devices_ok {xs : List Json}
    (h : ∀ item ∈ xs, ∃ b, format_device item = .ok b) :
    ∃ blocks : List String, format_devices xs = .ok blocks ∧
      blocks.length = xs.length ∧
      ∀ i (hi : i < xs.length) (hb : i < blocks.length),
        format_device (xs.get ⟨i, hi⟩) = .ok (blocks.get ⟨i, hb⟩) := by
  induction xs with
  | nil =>
      refine ⟨[], rfl, rfl, ?_⟩
      intro i hi
      simp at hi
  | cons x rest ih =>
      obtain ⟨b, hb⟩ := h x (by simp)
      obtain ⟨bs, hbs, hlen, hidx⟩ := ih (fun item hm => h item (by simp [hm]))
      refine ⟨b :: bs, ?_, by simp [hlen], ?_⟩
      · unfold format_devices
        rw [hb]
        simp [hbs, bind, Except.bind, pure, Except.pure]
      · intro i hi hbnd
        cases i with
        | zero => simpa using hb
        | succ j =>
            have hj : j < rest.length := by
              simpa using hi
            have hjb : j < bs.length := by
              simpa using hbnd
            simpa using hidx j hj hjb

/-- C5: for every dispatcher result that is an array of N ≥ 1 device
objects (each carrying the four expected fields), `get_devices` returns
exactly N formatted blocks, the i-th block formatted from the i-th device
(order preserving, no client-side sorting), joined by the fixed
`"\n---\n"` separator. -/
theorem C5_device_blocks (s : AppState) (status : Int) (remote : Remote)
    (xs : List Json)
    (h : httpResult (remote (dmt_get_sent s (devices_url status))) =
           some (.arr xs))
    (hne : xs ≠ [])
    (hfields : ∀ item ∈ xs, ∃ fs, item = Json.obj fs ∧
      (fs.lookup "connectionStatus").isSome = true ∧
      (fs.lookup "hostname").isSome = true ∧
      (fs.lookup "guid").isSome = true ∧
      (fs.lookup "friendlyName").isSome = true) :
    ∃ blocks : List String,
      format_devices xs = .ok blocks ∧
      blocks.length = xs.length ∧
      (∀ i (hi : i < xs.length) (hb : i < blocks.length),
        format_device (xs.get ⟨i, hi⟩) = .ok (blocks.get ⟨i, hb⟩)) ∧
      get_devices s status remote =
        .ok (String.intercalate "\n---\n" blocks) := by
  obtain ⟨blocks, hfd, hlen, hidx⟩ := format_devices_ok (fun item hm => by
    obtain ⟨fs, rfl, h1, h2, h3, h4⟩ := hfields item hm
    exact format_device_ok h1 h2 h3 h4)
  refine ⟨blocks, hfd, hlen, hidx, ?_⟩
  unfold get_devices make_dmt_get_request
  simp only [h]
  unfold get_devices_body
  have htr : pyTruthy (some (.arr xs)) = true := by
    cases xs with
    | nil => exact absurd rfl hne
    | cons a l => rfl
  rw [htr]
  have hlt : ¬ (xs.length < 1) := by
    cases xs with
    | nil => exact absurd rfl hne
    | cons a l => simp
  simp [hlt, pyIter, hfd, bind, Except.bind, pure, Except.pure]

/-- The two-device sample response used by the C5 witness. -/
def sample_devices : List Json :=
  [Json.obj [("connectionStatus", .int 1), ("hostname", .str "h1"),
             ("guid", .str "g1"), ("friendlyName", .str "f1")],
   Json.obj [("connectionStatus", .int 0), ("hostname", .str "h2"),
             ("guid", .str "g2"), ("friendlyName", .str "f2")]]

/-- C5 witness: a concrete two-device array yields exactly two blocks
joined by the separator. -/
theorem C5_device_blocks_witness :
    ∃ blocks : List String,
      format_devices sample_devices = .ok blocks ∧
      blocks.length = 2 ∧
      get_devices ⟨some (.str "T")⟩ 1
          (fun _ => .response 200 (some (.arr sample_devices))) =
        .ok (String.intercalate "\n---\n" blocks) := by
  have hx := C5_device_blocks ⟨some (.str "T")⟩ 1
    (fun _ => .response 200 (some (.arr sample_devices)))
    sample_devices (by rfl) (by simp [sample_devices])
    (by
      intro item hm
      simp only [sample_devices, List.mem_cons, List.not_mem_nil,
        or_false] at hm
      rcases hm with rfl | rfl
      · exact ⟨_, rfl, by rfl, by rfl, by rfl, by rfl⟩
      · exact ⟨_, rfl, by rfl, by rfl, by rfl, by rfl⟩)
  obtain ⟨blocks, hfd, hlen, _, hout⟩ := hx
  exact ⟨blocks, hfd, by simpa [sample_devices] using hlen, hout⟩

/-- Dispatcher results on which `get_devices` completes without an
exception: anything falsy (absence, empty containers, ...), or an array
of objects each carrying the four formatted fields. -/
def safe_devices_result (r : Option Json) : Prop :=
  pyTruthy r = false ∨
  ∃ xs, r = some (.arr xs) ∧ ∀ item ∈ xs, ∃ fs, item = Json.obj fs ∧
    (fs.lookup "connectionStatus").isSome = true ∧
    (fs.lookup "hostname").isSome = true ∧
    (fs.lookup "guid").isSome = true ∧
    (fs.lookup "friendlyName").isSome = true

/-- Dispatcher results on which `get_power_state` completes without an
exception: anything falsy, or an object carrying `powerstate`. -/
def safe_power_state_result (r : Option Json) : Prop :=
  pyTruthy r = false ∨
  ∃ fs, r = some (.obj fs) ∧ (fs.lookup "powerstate").isSome = true

/-- Dispatcher results on which `do_power_action` completes without an
exception: anything falsy, or any object (its `.get` never raises). -/
def safe_power_action_result (r : Option Json) : Prop :=
  pyTruthy r = false ∨ ∃ fs, r = some (Json.obj fs)

theorem get_devices_body_ok {r : Option Json} (h : safe_devices_result r) :
    ∃ t, get_devices_body r = .ok t := by
  rcases h with hf | ⟨xs, rfl, hfields⟩
  · refine ⟨"Unable to fetch devices.", ?_⟩
    unfold get_devices_body
    rw [hf]
    rfl
  · cases xs with
    | nil => exact ⟨"Unable to fetch devices.", rfl⟩
    | cons a l =>
        obtain ⟨blocks, hfd, _, _⟩ := format_devices_ok (fun item hm => by
          obtain ⟨fs, rfl, h1, h2, h3, h4⟩ := hfields item hm
          exact format_device_ok h1 h2 h3 h4)
        refine ⟨String.intercalate "\n---\n" blocks, ?_⟩
        unfold get_devices_body
        simp [pyTruthy, Json.truthy, pyIter, hfd,
          bind, Except.bind, pure, Except.pure]

theorem get_power_state_body_ok {r : Option Json}
    (h : safe_power_state_result r) :
    ∃ t, get_power_state_body r = .ok t := by
  rcases h with hf | ⟨fs, rfl, hps⟩
  · refine ⟨"Unable to get power state of device.", ?_⟩
    unfold get_power_state_body
    rw [hf]
    rfl
  · obtain ⟨v, hv⟩ := Option.isSome_iff_exists.mp hps
    refine ⟨"Power State: " ++ power_state_label v, ?_⟩
    unfold get_power_state_body
    rw [truthy_obj_of_lookup hv]
    simp [pySubscript, hv, bind, Except.bind, pure, Except.pure]

theorem do_power_action_body_nonnull {fs : List (String × Json)} {v : Json}
    (htr : pyTruthy (some (.obj fs)) = true)
    (hl : fs.lookup "ReturnValue" = some v)
    (hget : pyDictGet (.obj fs) "ReturnValue" = .ok (some v)) :
    ∃ t, do_power_action_body (some (.obj fs)) = .ok t := by
  by_cases hc : pyToInt v = some 0
  · refine ⟨"Success to perform power action.", ?_⟩
    unfold do_power_action_body
    rw [htr]
    simp [hget, pySubscript, hl, hc, bind, Except.bind, pure, Except.pure]
  · refine ⟨"Failed to perform power action.", ?_⟩
    unfold do_power_action_body
    rw [htr]
    simp [hget, pySubscript, hl, hc, bind, Except.bind, pure, Except.pure]

theorem do_power_action_body_ok {r : Option Json}
    (h : safe_power_action_result r) :
    ∃ t, do_power_action_body r = .ok t := by
  rcases h with hf | ⟨fs, rfl⟩
  · refine ⟨"Unable to perform power action on the device.", ?_⟩
    unfold do_power_action_body
    rw [hf]
    rfl
  · cases hfe : fs.isEmpty with
    | true =>
        refine ⟨"Unable to perform power action on the device.", ?_⟩
        unfold do_power_action_body
        have : pyTruthy (some (.obj fs)) = false := by
          simp [pyTruthy, Json.truthy, hfe]
        rw [this]
        rfl
    | false =>
        have htr : pyTruthy (some (.obj fs)) = true := by
          simp [pyTruthy, Json.truthy, hfe]
        cases hl : fs.lookup "ReturnValue" with
        | none =>
            refine ⟨"Unable to perform power action on the device.", ?_⟩
            unfold do_power_action_body
            rw [htr]
            simp [pyDictGet, hl, bind, Except.bind, pure, Except.pure]
        | some v =>
            cases v with
            | null =>
                refine ⟨"Unable to perform power action on the device.", ?_⟩
                unfold do_power_action_body
                rw [htr]
                simp [pyDictGet, hl, bind, Except.bind, pure, Except.pure]
            | bool b =>
                exact do_power_action_body_nonnull htr hl
                  (by simp [pyDictGet, hl])
            | int n =>
                exact do_power_action_body_nonnull htr hl
                  (by simp [pyDictGet, hl])
            | str a =>
                exact do_power_action_body_nonnull htr hl
                  (by simp [pyDictGet, hl])
            | arr a =>
                exact do_power_action_body_nonnull htr hl
                  (by simp [pyDictGet, hl])
            | obj a =>
                exact do_power_action_body_nonnull htr hl
                  (by simp [pyDictGet, hl])

/-- C1 counterexample: against a stub returning the 2xx JSON body
`\x7b"status": "ok"\x7d` (missing `powerstate`), `get_power_state` raises
a `KeyError` instead of returning a plain-text string — the claim's
"never raises" contract does not hold for truthy bodies missing expected
fields. -/
theorem C1_counterexample_keyerror :
    get_power_state ⟨some (.str "T")⟩ "abc-123"
      (fun _ => .response 200 (some (.obj [("status", .str "ok")]))) =
      .error (.keyError "powerstate") := rfl

/-- C1 amended: the three tools return plain-text strings (never raise)
for every dispatcher result that is absence or falsy; additionally
`get_devices` stays exception-free on arrays of objects carrying the four
formatted fields, `get_power_state` on objects carrying `powerstate`, and
`do_power_action` on arbitrary objects.  (A truthy 2xx body missing one
of those expected fields makes `get_devices`/`get_power_state` raise
`KeyError`, as the counterexample shows.) -/
theorem C1_amended_no_raise (s : AppState) (status action : Int)
    (guid1 guid2 useSOL : String) (remote : Remote)
    (hDev : safe_devices_result
      (httpResult (remote (dmt_get_sent s (devices_url status)))))
    (hPS : safe_power_state_result
      (httpResult (remote (dmt_get_sent s (power_state_url guid1)))))
    (hPA : safe_power_action_result
      (httpResult (remote (dmt_post_sent s (power_action_url guid2)
        (power_action_payload action useSOL))))) :
    (∃ t, get_devices s status remote = .ok t) ∧
    (∃ t, get_power_state s guid1 remote = .ok t) ∧
    (∃ t, do_power_action s guid2 action useSOL remote = .ok t) := by
  refine ⟨?_, ?_, ?_⟩
  · obtain ⟨t, ht⟩ := get_devices_body_ok hDev
    exact ⟨t, ht⟩
  · obtain ⟨t, ht⟩ := get_power_state_body_ok hPS
    exact ⟨t, ht⟩
  · obtain ⟨t, ht⟩ := do_power_action_body_ok hPA
    exact ⟨t, ht⟩

/-- C1 witness: with the whole remote API down (every call a transport
failure), all three tools still answer with strings. -/
theorem C1_amended_no_raise_witness :
    (∃ t, get_devices ⟨none⟩ 1 (fun _ => .failure) = .ok t) ∧
    (∃ t, get_power_state ⟨none⟩ "abc-123" (fun _ => .failure) = .ok t) ∧
    (∃ t, do_power_action ⟨none⟩ "abc-123" 10 "false" (fun _ => .failure) =
      .ok t) :=
  C1_amended_no_raise ⟨none⟩ 1 10 "abc-123" "abc-123" "false"
    (fun _ => .failure) (Or.inl rfl) (Or.inl rfl) (Or.inl rfl)

/-- A dispatcher call that fails: network error/timeout, a non-2xx
status, or a 2xx body whose JSON parse fails. -/
def dispatch_failure (o : HttpOutcome) : Prop :=
  o = .failure ∨
  (∃ st b, o = .response st b ∧ (st < 200 ∨ 299 < st)) ∨
  (∃ st, o = .response st none)

/-- C6: both dispatcher variants return the parsed JSON body on a 2xx
response; on any failure (network error/timeout, non-2xx status, JSON
parse failure) they return absence — the same `none` regardless of the
cause — and they never mutate the stored credential (the state after the
call equals the state before).  The `try/except Exception` around the
whole body is what makes the absence result exception-free. -/
theorem C6_dispatcher_uniform (s : AppState) (url1 url2 : String)
    (payload : Json) (remote : Remote) :
    (∀ st j, remote (dmt_get_sent s url1) = .response st j →
        200 ≤ st → st ≤ 299 → (make_dmt_get_request s url1 remote).1 = j) ∧
    (∀ st j, remote (dmt_post_sent s url2 payload) = .response st j →
        200 ≤ st → st ≤ 299 →
        (make_dmt_post_request s url2 payload remote).1 = j) ∧
    (dispatch_failure (remote (dmt_get_sent s url1)) →
        (make_dmt_get_request s url1 remote).1 = none) ∧
    (dispatch_failure (remote (dmt_post_sent s url2 payload)) →
        (make_dmt_post_request s url2 payload remote).1 = none) ∧
    (make_dmt_get_request s url1 remote).2 = s ∧
    (make_dmt_post_request s url2 payload remote).2 = s := by
  refine ⟨?_, ?_, ?_, ?_, rfl, rfl⟩
  · intro st j h h1 h2
    simp [make_dmt_get_request, h, httpResult, h1, h2]
  · intro st j h h1 h2
    simp [make_dmt_post_request, h, httpResult, h1, h2]
  · intro hf
    rcases hf with h | ⟨st, b, h, hst⟩ | ⟨st, h⟩
    · simp [make_dmt_get_request, h, httpResult]
    · simp [make_dmt_get_request, h, httpResult,
        show ¬ (200 ≤ st ∧ st ≤ 299) by omega]
    · simp [make_dmt_get_request, h, httpResult]
  · intro hf
    rcases hf with h | ⟨st, b, h, hst⟩ | ⟨st, h⟩
    · simp [make_dmt_post_request, h, httpResult]
    · simp [make_dmt_post_request, h, httpResult,
        show ¬ (200 ≤ st ∧ st ≤ 299) by omega]
    · simp [make_dmt_post_request, h, httpResult]

/-- C6 witness: a 200 response hands back its body, a timeout hands back
absence, and the state is untouched. -/
theorem C6_dispatcher_uniform_witness :
    (make_dmt_get_request ⟨some (.str "T")⟩ "u"
        (fun _ => .response 200 (some (.int 5)))).1 = some (.int 5) ∧
    (make_dmt_post_request ⟨some (.str "T")⟩ "u" .null
        (fun _ => .failure)).1 = none ∧
    (make_dmt_get_request ⟨some (.str "T")⟩ "u"
        (fun _ => .response 200 (some (.int 5)))).2 = ⟨some (.str "T")⟩ := by
  refine ⟨?_, ?_, ?_⟩
  · exact (C6_dispatcher_uniform ⟨some (.str "T")⟩ "u" "u" .null
      (fun _ => .response 200 (some (.int 5)))).1 200 (some (.int 5))
      rfl (by decide) (by decide)
  · exact (C6_dispatcher_uniform ⟨some (.str "T")⟩ "u" "u" .null
      (fun _ => .failure)).2.2.2.1 (Or.inl rfl)
  · exact (C6_dispatcher_uniform ⟨some (.str "T")⟩ "u" "u" .null
      (fun _ => .response 200 (some (.int 5)))).2.2.2.2.1

/-- C7: with a credential held (a string token `t`), both dispatcher
variants attach exactly the three headers: the fixed client identifier,
`Accept: application/json`, and `Authorization: Bearer t`. -/
theorem C7_headers_exact (s : AppState) (t url1 url2 : String)
    (payload : Json) (h : s.token = some (.str t)) :
    (dmt_get_sent s url1).headers =
      [("User-Agent", "DMT-app/1.0"), ("Accept", "application/json"),
       ("Authorization", "Bearer " ++ t)] ∧
    (dmt_post_sent s url2 payload).headers =
      [("User-Agent", "DMT-app/1.0"), ("Accept", "application/json"),
       ("Authorization", "Bearer " ++ t)] := by
  constructor <;>
    simp [dmt_get_sent, dmt_post_sent, dmt_headers, h, pyStrOpt, pyStr,
      USER_AGENT]

/-- C7 witness: with the token `"tok"` the headers are exactly the fixed
three. -/
theorem C7_headers_exact_witness :
    (dmt_get_sent ⟨some (.str "tok")⟩ "u").headers =
      [("User-Agent", "DMT-app/1.0"), ("Accept", "application/json"),
       ("Authorization", "Bearer tok")] ∧
    (dmt_post_sent ⟨some (.str "tok")⟩ "u" .null).headers =
      [("User-Agent", "DMT-app/1.0"), ("Accept", "application/json"),
       ("Authorization", "Bearer tok")] :=
  C7_headers_exact ⟨some (.str "tok")⟩ "tok" "u" "u" .null rfl

/-- C8: `get_token` returns absence on a transport error, on any non-2xx
status, and on a 2xx object body missing the `token` field; on success it
returns the token extracted from the body. -/
theorem C8_get_token_contract (u p : String) (remote : Remote) :
    (remote (auth_sent u p) = .failure → get_token u p remote = none) ∧
    (∀ st b, remote (auth_sent u p) = .response st b →
        st < 200 ∨ 299 < st → get_token u p remote = none) ∧
    (∀ st fs, remote (auth_sent u p) = .response st (some (.obj fs)) →
        200 ≤ st → st ≤ 299 → fs.lookup "token" = none →
        get_token u p remote = none) ∧
    (∀ st fs tok,
        remote (auth_sent u p) = .response st (some (.obj fs)) →
        200 ≤ st → st ≤ 299 → fs.lookup "token" = some (.str tok) →
        get_token u p remote = some (.str tok)) := by
  refine ⟨?_, ?_, ?_, ?_⟩
  · intro h
    simp [get_token, h]
  · intro st b h hst
    simp [get_token, h, show ¬ (200 ≤ st ∧ st ≤ 299) by omega]
  · intro st fs h h1 h2 hm
    simp [get_token, h, h1, h2, hm]
  · intro st fs tok h h1 h2 hm
    simp [get_token, h, h1, h2, hm]

/-- C8 witness: a 2xx body carrying `token` yields that token; a 401
yields absence. -/
theorem C8_get_token_contract_witness :
    get_token "u" "p"
      (fun _ => .response 200 (some (.obj [("token", .str "T")]))) =
      some (.str "T") ∧
    get_token "u" "p" (fun _ => .response 401 (some (.obj []))) = none := by
  constructor
  · exact (C8_get_token_contract "u" "p"
      (fun _ => .response 200 (some (.obj [("token", .str "T")])))).2.2.2
      200 [("token", .str "T")] "T" rfl (by decide) (by decide) rfl
  · exact (C8_get_token_contract "u" "p"
      (fun _ => .response 401 (some (.obj [])))).2.1
      401 (some (.obj [])) rfl (by omega)

/-- C9: `do_power_action` forwards the action integer and the `useSOL`
string verbatim in the POST payload — for every integer action code (no
validation) and every `useSOL` string (kept a string, not converted to a
boolean) — and its result depends on the remote only through that exact
request. -/
theorem C9_payload_verbatim (s : AppState) (guid useSOL : String)
    (action : Int) :
    (dmt_post_sent s (power_action_url guid)
        (power_action_payload action useSOL)).body =
      some (.obj [("action", .int action), ("useSOL", .str useSOL)]) ∧
    ∀ remote remote2 : Remote,
      remote (dmt_post_sent s (power_action_url guid)
          (power_action_payload action useSOL)) =
        remote2 (dmt_post_sent s (power_action_url guid)
          (power_action_payload action useSOL)) →
      do_power_action s guid action useSOL remote =
        do_power_action s guid action useSOL remote2 := by
  refine ⟨rfl, ?_⟩
  intro r1 r2 h
  unfold do_power_action make_dmt_post_request
  rw [h]

/-- C9 witness: the payload for action 10 with the default
`useSOL = "false"` is exactly `\x7b"action": 10, "useSOL": "false"\x7d`. -/
theorem C9_payload_verbatim_witness :
    (dmt_post_sent ⟨none⟩ (power_action_url "abc-123")
        (power_action_payload 10 "false")).body =
      some (.obj [("action", .int 10), ("useSOL", .str "false")]) ∧
    do_power_action ⟨none⟩ "abc-123" 10 "false" (fun _ => .failure) =
      do_power_action ⟨none⟩ "abc-123" 10 "false" (fun _ => .failure) :=
  ⟨(C9_payload_verbatim ⟨none⟩ "abc-123" "false" 10).1,
   (C9_payload_verbatim ⟨none⟩ "abc-123" "false" 10).2 _ _ rfl⟩

/-- C10: when startup credential acquisition failed (the stored
credential is absent), every dispatcher request still carries an
`Authorization` header, whose value is the literal `"Bearer None"` formed
from the absent credential — invalid value, never a missing header. -/
theorem C10_bearer_none_header (u p url1 url2 : String) (payload : Json)
    (remote : Remote) (h : get_token u p remote = none) :
    (dmt_get_sent (authorize u p remote) url1).headers.lookup
        "Authorization" = some "Bearer None" ∧
    (dmt_post_sent (authorize u p remote) url2 payload).headers.lookup
        "Authorization" = some "Bearer None" := by
  constructor <;>
    simp [dmt_get_sent, dmt_post_sent, authorize, dmt_headers, h,
      pyStrOpt, List.lookup]

/-- C10 witness: with the authorization endpoint down at startup, the
Authorization header of a later GET is present and reads `Bearer None`. -/
theorem C10_bearer_none_header_witness :
    (dmt_get_sent (authorize "u" "p" (fun _ => .failure))
        "url1").headers.lookup "Authorization" = some "Bearer None" ∧
    (dmt_post_sent (authorize "u" "p" (fun _ => .failure)) "url2"
        .null).headers.lookup "Authorization" = some "Bearer None" :=
  C10_bearer_none_header "u" "p" "url1" "url2" .null (fun _ => .failure) rfl

end DMT
